import Mathlib

/-
Verification of the core of the serlo mediawiki-parser: the parse
orchestrator and the six-stage transformation pipeline (src/lib.rs), and the
diagnostic subsystem, ParseError and TransformationError, with their
construction and rendering (src/error.rs).

Modelling conventions:
- Rust `usize` is modelled as `Nat`.  Where the source performs a `usize`
  subtraction that can underflow (which panics in debug builds), the
  embedding uses `rustSub`, returning `none` for the underflow/panic case.
- Rust `Result<T, E>` is `Except E T`; the `?` operator is the explicit
  match on `Except` mirrored in each definition.
- `colored` terminal styling (`.red()`, `.bold()`, ...) is a pure string
  decoration around the same text; the embedding renders the undecorated
  text, which the spec declares the presentational contract to be.
- Code of this repository not under src/ (util.rs, ast.rs, the generated
  grammar, default_transformations.rs) is either modelled from the spec
  (marked `Modelled from the spec:` in its doc comment) or taken as an
  opaque parameter (the six pipeline stage functions, the grammar).
-/

namespace MWParser

/-- Modelled from the spec: ast::Position is not under src/.  Section 3 of
the spec: offset plus 1-based line and column. -/
structure Position where
  offset : Nat
  line : Nat
  col : Nat
deriving Repr, DecidableEq

/-- Modelled from the spec: ast::Span is not under src/.  A start/end
position pair. -/
structure Span where
  start : Position
  «end» : Position
deriving Repr, DecidableEq

/-- Modelled from the spec: the list item kinds of section 3. -/
inductive ListItemKind where
  | unordered
  | ordered
  | definition
deriving Repr, DecidableEq

/-- Modelled from the spec: ast::Element is not under src/.  The tagged
union of section 3, with template arguments inlined as a constructor and an
opaque catch-all for the passthrough variants; the pipeline claims treat
the stage functions as parameters, so only the existence of the tree type
matters for them. -/
inductive Element where
  | document (content : List Element)
  | heading (level : Nat) (caption : List Element) (content : List Element) (span : Span)
  | paragraph (content : List Element) (span : Span)
  | list (content : List Element) (span : Span)
  | listItem (depth : Nat) (kind : ListItemKind) (content : List Element) (span : Span)
  | text (t : String) (span : Span)
  | template (name : List Element) (arguments : List Element) (span : Span)
  | templateArgument (name : Option String) (value : List Element) (span : Span)
  | other (span : Span)

/-- The settings object handed to every pipeline stage; it currently
carries no fields (src/lib.rs line 53 builds `GeneralSettings {}`). -/
structure GeneralSettings

/-- One source line with its content and its start and end offsets
(util::SourceLine; the struct shape follows section 3 of the spec). -/
structure SourceLine where
  start : Nat
  content : String
  «end» : Nat
deriving Repr, DecidableEq

/-- Splits a character list at every newline, returning the first line and
the remaining lines, so that the full line list is provably non-empty. -/
def splitLinesAux : List Char → List Char × List (List Char)
  | [] => ([], [])
  | c :: rest =>
    let r := splitLinesAux rest
    if c = '\n' then ([], r.1 :: r.2) else (c :: r.1, r.2)

/-- All lines of a character list: split at every newline; the empty input
yields one empty line, as Rust `str::split` does. -/
def splitLines (cs : List Char) : List (List Char) :=
  (splitLinesAux cs).1 :: (splitLinesAux cs).2

/-- Builds the SourceLine records for a list of line contents, threading
the running offset; each line ends one past its content (the newline). -/
def mkSourceLines : List (List Char) → Nat → List SourceLine
  | [], _ => []
  | l :: ls, pos =>
    let content := String.mk l
    { start := pos, content := content, «end» := pos + content.length + 1 }
      :: mkSourceLines ls (pos + content.length + 1)

/-- Modelled from the spec: util::get_source_lines is not under src/.
Section 4.1: produce an ordered sequence of SourceLine covering the whole
input, splitting on line-terminator boundaries, with exact offsets. -/
def get_source_lines (input : String) : List SourceLine :=
  mkSourceLines (splitLines input.toList) 0

/-- Index and start offset of the last source line whose start offset is at
most the given offset (the lines are scanned in order of increasing start
offset). -/
def locateLine (offset : Nat) : Nat → Nat × Nat → List SourceLine → Nat × Nat
  | _, best, [] => best
  | idx, best, l :: ls =>
    if l.start ≤ offset then locateLine offset (idx + 1) (idx, l.start) ls else best

/-- Modelled from the spec: ast::Position::new is not under src/.
Section 4.1: locate the containing SourceLine and compute
col = offset - start_offset + 1, with a 1-based line number. -/
def Position.new (offset : Nat) (lines : List SourceLine) : Position :=
  let p := locateLine offset 0 (0, 0) lines
  { offset := offset, line := p.1 + 1, col := offset - p.2 + 1 }

/-- The number of lines to display as error context (src/error.rs line 9). -/
def ERROR_CONTEXT_LINES : Nat := 5

/-- The parser error with source code context (src/error.rs lines 16-22). -/
structure ParseError where
  position : Position
  expected : List String
  context : List String
  context_start : Nat
  context_end : Nat
deriving Repr, DecidableEq

/-- Error structure for syntax tree transformations
(src/error.rs lines 27-32). -/
structure TransformationError where
  cause : String
  position : Span
  transformation_name : String
  tree : Element

/-- The structured grammar failure, per section 6 of the spec: byte offset,
1-based line number, and the ordered expected-terminal names
(grammar::ParseError; the generated grammar is not under src/). -/
structure GrammarParseError where
  offset : Nat
  line : Nat
  expected : List String
deriving Repr, DecidableEq

/-- Rust `usize` subtraction: `none` models the underflow panic of a debug
build (`a - b` with `b > a`). -/
def rustSub (a b : Nat) : Option Nat :=
  if b ≤ a then some (a - b) else none

/-- The failing-line clamp of src/error.rs lines 40-44:
`(if err.line <= line_count { err.line } else { line_count }) - 1`
as a checked usize subtraction. -/
def clampLine? (errLine lineCount : Nat) : Option Nat :=
  rustSub (if errLine ≤ lineCount then errLine else lineCount) 1

/-- The context window start of src/error.rs lines 46-50:
`if line < ERROR_CONTEXT_LINES { 0 } else { line - ERROR_CONTEXT_LINES }`. -/
def windowStart (line : Nat) : Nat :=
  if line < ERROR_CONTEXT_LINES then 0 else line - ERROR_CONTEXT_LINES

/-- The context window end of src/error.rs lines 52-56:
`if line + ERROR_CONTEXT_LINES >= line_count { line_count - 1 } else
{ line + ERROR_CONTEXT_LINES }`.  The `line_count - 1` subtraction cannot
underflow because `get_source_lines` always returns at least one line. -/
def windowEnd (line lineCount : Nat) : Nat :=
  if line + ERROR_CONTEXT_LINES ≥ lineCount then lineCount - 1
  else line + ERROR_CONTEXT_LINES

/-- The value of the clamp of src/error.rs lines 40-44 when its subtraction
does not underflow. -/
def clampedLine (errLine lineCount : Nat) : Nat :=
  (if errLine ≤ lineCount then errLine else lineCount) - 1

/-- The body of ParseError::from after the failing line has been clamped
(src/error.rs lines 46-75): the symmetric context window, a copy of every
expected token in order, the window's line contents in order, the resolved
failing position. -/
def ParseError.fromBody (err : GrammarParseError) (input : String) (line : Nat) : ParseError :=
  let source_lines := get_source_lines input
  let line_count := source_lines.length
  let s := windowStart line
  let t := windowEnd line line_count
  { position := Position.new err.offset source_lines
    context := ((source_lines.drop s).take (t + 1 - s)).map (fun sl => sl.content)
    expected := err.expected
    context_start := s
    context_end := t }

/-- ParseError::from (src/error.rs lines 34-76): rebuild the source lines,
clamp the failing line, take the symmetric context window, copy the
expected tokens and the window's line contents.  Returns `none` exactly
when the usize subtraction of the clamp underflows (panic); the slice
`source_lines[start..end + 1]` is modelled by drop/take, whose bounds are
proved in range below. -/
def ParseError.from? (err : GrammarParseError) (input : String) : Option ParseError :=
  match clampLine? err.line (get_source_lines input).length with
  | none => none
  | some line => some (ParseError.fromBody err input line)

/-- Modelled from the spec: util::is_whitespace is not under src/.
Section 4.2: a token is whitespace-only when every character is
whitespace/line-break. -/
def is_whitespace (s : String) : Bool :=
  s.toList.all Char.isWhitespace

/-- One character of Rust `format!` with the `{:?}` (Debug) specifier on a
string: escape the common control characters, the backslash and the
quote. -/
def rustEscapeChar (c : Char) : String :=
  if c = '\n' then ("\\n")
  else if c = '\t' then ("\\t")
  else if c = '\r' then ("\\r")
  else if c = '\\' then ("\\\\")
  else if c = '\"' then ("\\\"")
  else String.singleton c

/-- Rust `format!` with the `{:?}` (Debug) specifier on a string: the
escaped content between double quotes. -/
def rustDebugStr (s : String) : String :=
  "\"" ++ String.join (s.toList.map rustEscapeChar) ++ "\""

/-- The display cap on one shortened context line. -/
def MAX_LINE_DISPLAY : Nat := 60

/-- Modelled from the spec: util::shorten_str is not under src/.
Section 4.2: non-failing context lines may be truncated for display,
capped length with an ellipsis. -/
def shorten_str (s : String) : String :=
  if s.length > MAX_LINE_DISPLAY then s.take MAX_LINE_DISPLAY ++ "..." else s

/-- The expected-token loop of the ParseError Display impl
(src/error.rs lines 91-98): whitespace-only tokens are Debug-formatted
(escaped and quoted), the rest pass through. -/
def renderTokens : List String → List String
  | [] => []
  | t :: rest =>
    (if is_whitespace t then rustDebugStr t else t) :: renderTokens rest

/-- The context loop of the ParseError Display impl (src/error.rs lines
103-119): each line gets a `<lineno> |` gutter with the 1-based line
number `context_start + i + 1`; the failing line (the one whose number
equals `position.line`) shows its full content, every other line is
shortened. -/
def renderContextLines (pe : ParseError) : Nat → List String → String
  | _, [] => ""
  | i, content :: rest =>
    let lineno := toString (pe.context_start + i + 1) ++ " |"
    let formatted :=
      if pe.context_start + i + 1 = pe.position.line then content
      else shorten_str content
    lineno ++ " " ++ formatted ++ "\n" ++ renderContextLines pe (i + 1) rest

/-- The ParseError Display impl (src/error.rs lines 85-123), with the
terminal styling stripped: the headline with the failing line and column,
the comma-joined expected tokens, then the context block. -/
def renderParseError (pe : ParseError) : String :=
  let error_message :=
    "ERROR in line " ++ toString pe.position.line ++ " at column "
      ++ toString pe.position.col ++ ": Could not continue to parse, expected one of: "
  error_message ++ String.intercalate (", ") (renderTokens pe.expected) ++ "\n"
    ++ renderContextLines pe 0 pe.context

/-- The TransformationError Display impl (src/error.rs lines 131-140), with
the terminal styling stripped; the `Elemtn` typo is the source's. -/
def renderTransformationError (te : TransformationError) : String :=
  "ERROR applying transformation \"" ++ te.transformation_name
    ++ "\" to Elemtn at " ++ toString te.position.start.line ++ ":"
    ++ toString te.position.start.col ++ " to " ++ toString te.position.«end».line
    ++ ":" ++ toString te.position.«end».col ++ ": " ++ te.cause ++ "\n"

/-- The result type of one transformation stage
(transformations::TResult). -/
abbrev TResult := Except TransformationError Element

/-- The six pipeline stage functions.  Their bodies live in
default_transformations.rs, which is not under src/, so the pipeline is
verified for arbitrary stage functions; the field names are the function
names called by apply_transformations (src/lib.rs lines 70-75). -/
structure Stages where
  fold_headings_transformation : Element → GeneralSettings → TResult
  fold_lists_transformation : Element → GeneralSettings → TResult
  whitespace_paragraphs_to_empty : Element → GeneralSettings → TResult
  collapse_paragraphs : Element → GeneralSettings → TResult
  collapse_consecutive_text : Element → GeneralSettings → TResult
  enumerate_anon_args : Element → GeneralSettings → TResult

/-- apply_transformations (src/lib.rs lines 67-77): the six stages in their
fixed order, each consuming the previous stage's output; every `?` is the
explicit error short-circuit. -/
def apply_transformations (st : Stages) (root : Element) (settings : GeneralSettings) : TResult :=
  match st.fold_headings_transformation root settings with
  | Except.error e => Except.error e
  | Except.ok r1 =>
  match st.fold_lists_transformation r1 settings with
  | Except.error e => Except.error e
  | Except.ok r2 =>
  match st.whitespace_paragraphs_to_empty r2 settings with
  | Except.error e => Except.error e
  | Except.ok r3 =>
  match st.collapse_paragraphs r3 settings with
  | Except.error e => Except.error e
  | Except.ok r4 =>
  match st.collapse_consecutive_text r4 settings with
  | Except.error e => Except.error e
  | Except.ok r5 =>
  match st.enumerate_anon_args r5 settings with
  | Except.error e => Except.error e
  | Except.ok r6 => Except.ok r6

/-- Modelled from the spec: error::MWError is used by src/lib.rs but its
enum is not under src/.  Section 6: a tagged error that is either a
ParseError or a TransformationError. -/
inductive MWError where
  | parseError (e : ParseError)
  | transformationError (e : TransformationError)

/-- parse (src/lib.rs lines 36-65): build the source-line index, invoke the
grammar, on failure wrap the grammar error as a ParseError and return it
(no pipeline run), on success run the six-stage pipeline against an empty
GeneralSettings.  The grammar and the stage functions are parameters (the
generated grammar and default_transformations.rs are not under src/).
The outer Option carries the panic of ParseError::from on a zero grammar
line, exactly as in `from?`. -/
def parse? (grammar_document : String → List SourceLine → Except GrammarParseError Element)
    (st : Stages) (input : String) : Option (Except MWError Element) :=
  let source_lines := get_source_lines input
  match grammar_document input source_lines with
  | Except.error e =>
    (ParseError.from? e input).map (fun pe => Except.error (MWError.parseError pe))
  | Except.ok r =>
    let settings : GeneralSettings := {}
    some
      (match apply_transformations st r settings with
       | Except.error te => Except.error (MWError.transformationError te)
       | Except.ok t => Except.ok t)

/-- Concatenation of a list of strings in order, used to state the shape of
the rendered context block. -/
def concatLines : List String → String
  | [] => ""
  | s :: rest => s ++ concatLines rest

/-- A concrete span for concrete test trees. -/
def exSpan : Span :=
  { start := { offset := 0, line := 1, col := 1 }
    «end» := { offset := 1, line := 1, col := 2 } }

/-- A concrete element for concrete pipeline runs. -/
def exEl : Element := Element.text ("x") exSpan

/-- A concrete transformation error raised by a concrete failing stage. -/
def exTE : TransformationError :=
  { cause := "malformed nesting"
    position := exSpan
    transformation_name := "fold_lists_transformation"
    tree := exEl }

/-- A concrete stage set where every stage succeeds and returns its input
unchanged. -/
def stOk : Stages :=
  { fold_headings_transformation := fun r _ => Except.ok r
    fold_lists_transformation := fun r _ => Except.ok r
    whitespace_paragraphs_to_empty := fun r _ => Except.ok r
    collapse_paragraphs := fun r _ => Except.ok r
    collapse_consecutive_text := fun r _ => Except.ok r
    enumerate_anon_args := fun r _ => Except.ok r }

/-- A concrete stage set whose second stage fails. -/
def stErr2 : Stages :=
  { stOk with fold_lists_transformation := fun _ _ => Except.error exTE }

/-- A concrete grammar failure at line 1, offset 0. -/
def exGE : GrammarParseError := { offset := 0, line := 1, expected := ["t"] }

/-- A concrete grammar failure at line 2 of a three-line input. -/
def exGE3 : GrammarParseError := { offset := 2, line := 2, expected := ["x"] }

/-- A concrete three-line input. -/
def exInput3 : String := "a\nb\nc"

/-- The ParseError that ParseError::from builds for `exGE` on the one-line
input "x". -/
def exPE : ParseError :=
  { position := { offset := 0, line := 1, col := 1 }
    expected := ["t"]
    context := ["x"]
    context_start := 0
    context_end := 0 }

/-- The ParseError that ParseError::from builds for `exGE3` on
`exInput3`. -/
def exPE3 : ParseError :=
  { position := { offset := 2, line := 2, col := 1 }
    expected := ["x"]
    context := ["a", "b", "c"]
    context_start := 0
    context_end := 2 }

/-- A concrete grammar that always fails with `exGE`. -/
def gErr : String → List SourceLine → Except GrammarParseError Element :=
  fun _ _ => Except.error exGE

/-- A concrete grammar that always succeeds with `exEl`. -/
def gOk : String → List SourceLine → Except GrammarParseError Element :=
  fun _ _ => Except.ok exEl

theorem mkSourceLines_length (ls : List (List Char)) :
    ∀ pos, (mkSourceLines ls pos).length = ls.length := by
  induction ls with
  | nil => intro pos; rfl
  | cons l rest ih => intro pos; simp [mkSourceLines, ih]

/-- Every input, the empty one included, yields at least one source line:
Rust `str::split` always produces a first piece. -/
theorem get_source_lines_length_pos (input : String) :
    0 < (get_source_lines input).length := by
  unfold get_source_lines splitLines
  rw [mkSourceLines_length]
  simp

theorem clampLine?_eq_some (errLine lineCount : Nat) (h1 : 1 ≤ errLine)
    (h2 : 1 ≤ lineCount) :
    clampLine? errLine lineCount = some (clampedLine errLine lineCount) := by
  unfold clampLine? clampedLine rustSub
  split_ifs <;> rfl

theorem from?_eq_some (err : GrammarParseError) (input : String) (h1 : 1 ≤ err.line) :
    ParseError.from? err input =
      some (ParseError.fromBody err input
        (clampedLine err.line (get_source_lines input).length)) := by
  unfold ParseError.from?
  rw [clampLine?_eq_some err.line (get_source_lines input).length h1
    (get_source_lines_length_pos input)]

theorem fromBody_context_start (err : GrammarParseError) (input : String) (line : Nat) :
    (ParseError.fromBody err input line).context_start = windowStart line := rfl

theorem fromBody_context_end (err : GrammarParseError) (input : String) (line : Nat) :
    (ParseError.fromBody err input line).context_end =
      windowEnd line (get_source_lines input).length := rfl

theorem fromBody_expected (err : GrammarParseError) (input : String) (line : Nat) :
    (ParseError.fromBody err input line).expected = err.expected := rfl

theorem fromBody_context (err : GrammarParseError) (input : String) (line : Nat) :
    (ParseError.fromBody err input line).context =
      (((get_source_lines input).drop (windowStart line)).take
        (windowEnd line (get_source_lines input).length + 1 - windowStart line)).map
        (fun sl => sl.content) := rfl

/-- The clamped failing line is a valid line index. -/
theorem clampedLine_le (errLine lineCount : Nat) (h : 1 ≤ lineCount) :
    clampedLine errLine lineCount ≤ lineCount - 1 := by
  unfold clampedLine
  split_ifs <;> omega

/-- When the reported line is within the document, the clamp subtracts one
from it. -/
theorem clampedLine_of_le (errLine lineCount : Nat) (h : errLine ≤ lineCount) :
    clampedLine errLine lineCount = errLine - 1 := by
  unfold clampedLine
  split_ifs
  omega

/-- The bounds of the context window around a valid clamped line: the
window contains the line, reaches at most ERROR_CONTEXT_LINES to each side,
stays inside the document, and spans at most 11 lines. -/
theorem window_bounds (line lineCount : Nat) (hline : line ≤ lineCount - 1)
    (hlc : 1 ≤ lineCount) :
    windowStart line ≤ line
    ∧ line ≤ windowEnd line lineCount
    ∧ windowEnd line lineCount ≤ lineCount - 1
    ∧ line - windowStart line ≤ ERROR_CONTEXT_LINES
    ∧ windowEnd line lineCount - line ≤ ERROR_CONTEXT_LINES
    ∧ windowEnd line lineCount + 1 - windowStart line ≤ 11 := by
  unfold windowStart windowEnd ERROR_CONTEXT_LINES
  split_ifs <;> omega

/-- C1: apply_transformations applies exactly the six stages
fold_headings, fold_lists, whitespace_paragraphs_to_empty,
collapse_paragraphs, collapse_consecutive_text, enumerate_anon_args in
that fixed order, each consuming the previous stage's output, and the
first stage that returns a TransformationError is the pipeline's result
with no later stage executed; in particular, when stage 2 fails the
result does not depend on stages 3-6 at all. -/
theorem apply_transformations_pipeline_order :
    (∀ (st : Stages) (root : Element) (s : GeneralSettings) (r1 r2 r3 r4 r5 r6 : Element),
      st.fold_headings_transformation root s = Except.ok r1 →
      st.fold_lists_transformation r1 s = Except.ok r2 →
      st.whitespace_paragraphs_to_empty r2 s = Except.ok r3 →
      st.collapse_paragraphs r3 s = Except.ok r4 →
      st.collapse_consecutive_text r4 s = Except.ok r5 →
      st.enumerate_anon_args r5 s = Except.ok r6 →
      apply_transformations st root s = Except.ok r6)
    ∧ (∀ (st : Stages) (root : Element) (s : GeneralSettings) (e : TransformationError),
      st.fold_headings_transformation root s = Except.error e →
      apply_transformations st root s = Except.error e)
    ∧ (∀ (st : Stages) (root : Element) (s : GeneralSettings) (r1 : Element)
        (e : TransformationError),
      st.fold_headings_transformation root s = Except.ok r1 →
      st.fold_lists_transformation r1 s = Except.error e →
      apply_transformations st root s = Except.error e)
    ∧ (∀ (st : Stages) (root : Element) (s : GeneralSettings) (r1 r2 : Element)
        (e : TransformationError),
      st.fold_headings_transformation root s = Except.ok r1 →
      st.fold_lists_transformation r1 s = Except.ok r2 →
      st.whitespace_paragraphs_to_empty r2 s = Except.error e →
      apply_transformations st root s = Except.error e)
    ∧ (∀ (st : Stages) (root : Element) (s : GeneralSettings) (r1 r2 r3 : Element)
        (e : TransformationError),
      st.fold_headings_transformation root s = Except.ok r1 →
      st.fold_lists_transformation r1 s = Except.ok r2 →
      st.whitespace_paragraphs_to_empty r2 s = Except.ok r3 →
      st.collapse_paragraphs r3 s = Except.error e →
      apply_transformations st root s = Except.error e)
    ∧ (∀ (st : Stages) (root : Element) (s : GeneralSettings) (r1 r2 r3 r4 : Element)
        (e : TransformationError),
      st.fold_headings_transformation root s = Except.ok r1 →
      st.fold_lists_transformation r1 s = Except.ok r2 →
      st.whitespace_paragraphs_to_empty r2 s = Except.ok r3 →
      st.collapse_paragraphs r3 s = Except.ok r4 →
      st.collapse_consecutive_text r4 s = Except.error e →
      apply_transformations st root s = Except.error e)
    ∧ (∀ (st : Stages) (root : Element) (s : GeneralSettings) (r1 r2 r3 r4 r5 : Element)
        (e : TransformationError),
      st.fold_headings_transformation root s = Except.ok r1 →
      st.fold_lists_transformation r1 s = Except.ok r2 →
      st.whitespace_paragraphs_to_empty r2 s = Except.ok r3 →
      st.collapse_paragraphs r3 s = Except.ok r4 →
      st.collapse_consecutive_text r4 s = Except.ok r5 →
      st.enumerate_anon_args r5 s = Except.error e →
      apply_transformations st root s = Except.error e)
    ∧ (∀ (st st' : Stages) (root : Element) (s : GeneralSettings) (r1 : Element)
        (e : TransformationError),
      st'.fold_headings_transformation = st.fold_headings_transformation →
      st'.fold_lists_transformation = st.fold_lists_transformation →
      st.fold_headings_transformation root s = Except.ok r1 →
      st.fold_lists_transformation r1 s = Except.error e →
      apply_transformations st root s = Except.error e
      ∧ apply_transformations st' root s = Except.error e) := by
  refine ⟨?_, ?_, ?_, ?_, ?_, ?_, ?_, ?_⟩
  · intro st root s r1 r2 r3 r4 r5 r6 h1 h2 h3 h4 h5 h6
    simp [apply_transformations, h1, h2, h3, h4, h5, h6]
  · intro st root s e h1
    simp [apply_transformations, h1]
  · intro st root s r1 e h1 h2
    simp [apply_transformations, h1, h2]
  · intro st root s r1 r2 e h1 h2 h3
    simp [apply_transformations, h1, h2, h3]
  · intro st root s r1 r2 r3 e h1 h2 h3 h4
    simp [apply_transformations, h1, h2, h3, h4]
  · intro st root s r1 r2 r3 r4 e h1 h2 h3 h4 h5
    simp [apply_transformations, h1, h2, h3, h4, h5]
  · intro st root s r1 r2 r3 r4 r5 e h1 h2 h3 h4 h5 h6
    simp [apply_transformations, h1, h2, h3, h4, h5, h6]
  · intro st st' root s r1 e hf1 hf2 h1 h2
    constructor
    · simp [apply_transformations, h1, h2]
    · simp [apply_transformations, hf1, hf2, h1, h2]

/-- Witness for C1: a pipeline of identity stages succeeds with the input
tree, and a pipeline whose second stage fails returns that stage's error. -/
theorem apply_transformations_pipeline_order_witness :
    stOk.fold_headings_transformation exEl {} = Except.ok exEl
    ∧ apply_transformations stOk exEl {} = Except.ok exEl
    ∧ stErr2.fold_lists_transformation exEl {} = Except.error exTE
    ∧ apply_transformations stErr2 exEl {} = Except.error exTE :=
  ⟨rfl,
   apply_transformations_pipeline_order.1 stOk exEl {} exEl exEl exEl exEl exEl exEl
     rfl rfl rfl rfl rfl rfl,
   rfl,
   apply_transformations_pipeline_order.2.2.1 stErr2 exEl {} exEl exTE rfl rfl⟩

theorem parse?_grammar_error (g : String → List SourceLine → Except GrammarParseError Element)
    (st : Stages) (input : String) (e : GrammarParseError)
    (hg : g input (get_source_lines input) = Except.error e) :
    parse? g st input =
      (ParseError.from? e input).map (fun pe => Except.error (MWError.parseError pe)) := by
  simp [parse?, hg]

theorem parse?_grammar_ok (g : String → List SourceLine → Except GrammarParseError Element)
    (st : Stages) (input : String) (r : Element)
    (hg : g input (get_source_lines input) = Except.ok r) :
    parse? g st input =
      some
        (match apply_transformations st r {} with
         | Except.error te => Except.error (MWError.transformationError te)
         | Except.ok t => Except.ok t) := by
  simp [parse?, hg]

/-- C2: parse builds the source-line index, invokes the grammar, and on a
grammar failure (at a 1-based line, per the grammar contract) returns that
failure wrapped as a ParseError immediately, the result being independent
of the transformation stages; on grammar success it runs the six-stage
pipeline against the empty settings object, returning the final tree or
the first TransformationError; every result is exactly one of a tree, a
ParseError, or a TransformationError. -/
theorem parse_orchestration :
    (∀ (g : String → List SourceLine → Except GrammarParseError Element)
        (st st' : Stages) (input : String) (e : GrammarParseError),
      g input (get_source_lines input) = Except.error e →
      1 ≤ e.line →
      (∃ pe, ParseError.from? e input = some pe
        ∧ parse? g st input = some (Except.error (MWError.parseError pe)))
      ∧ parse? g st input = parse? g st' input)
    ∧ (∀ (g : String → List SourceLine → Except GrammarParseError Element)
        (st : Stages) (input : String) (r t : Element),
      g input (get_source_lines input) = Except.ok r →
      apply_transformations st r {} = Except.ok t →
      parse? g st input = some (Except.ok t))
    ∧ (∀ (g : String → List SourceLine → Except GrammarParseError Element)
        (st : Stages) (input : String) (r : Element) (te : TransformationError),
      g input (get_source_lines input) = Except.ok r →
      apply_transformations st r {} = Except.error te →
      parse? g st input = some (Except.error (MWError.transformationError te)))
    ∧ (∀ (g : String → List SourceLine → Except GrammarParseError Element)
        (st : Stages) (input : String) (res : Except MWError Element),
      parse? g st input = some res →
      (∃ t, res = Except.ok t)
      ∨ (∃ pe, res = Except.error (MWError.parseError pe))
      ∨ (∃ te, res = Except.error (MWError.transformationError te))) := by
  refine ⟨?_, ?_, ?_, ?_⟩
  · intro g st st' input e hg hl
    refine ⟨⟨ParseError.fromBody e input (clampedLine e.line (get_source_lines input).length),
      from?_eq_some e input hl, ?_⟩, ?_⟩
    · simp [parse?, hg, from?_eq_some e input hl]
    · simp [parse?, hg]
  · intro g st input r t hg happ
    simp [parse?, hg, happ]
  · intro g st input r te hg happ
    simp [parse?, hg, happ]
  · intro g st input res h
    cases hg : g input (get_source_lines input) with
    | error e =>
      rw [parse?_grammar_error g st input e hg] at h
      rcases Option.map_eq_some'.mp h with ⟨pe, _, rfl⟩
      exact Or.inr (Or.inl ⟨pe, rfl⟩)
    | ok r =>
      rw [parse?_grammar_ok g st input r hg] at h
      cases happ : apply_transformations st r {} with
      | error te =>
        rw [happ] at h
        obtain rfl := Option.some.inj h
        exact Or.inr (Or.inr ⟨te, rfl⟩)
      | ok t =>
        rw [happ] at h
        obtain rfl := Option.some.inj h
        exact Or.inl ⟨t, rfl⟩

/-- Witness for C2: a failing grammar on the one-line input "x" yields the
wrapped ParseError with no pipeline run, and a succeeding grammar yields
the pipeline's output tree. -/
theorem parse_orchestration_witness :
    gErr ("x") (get_source_lines ("x")) = Except.error exGE
    ∧ (1 : Nat) ≤ exGE.line
    ∧ ((∃ pe, ParseError.from? exGE ("x") = some pe
        ∧ parse? gErr stOk ("x") = some (Except.error (MWError.parseError pe)))
      ∧ parse? gErr stOk ("x") = parse? gErr stErr2 ("x"))
    ∧ parse? gOk stOk ("x") = some (Except.ok exEl) :=
  ⟨rfl, by decide,
   parse_orchestration.1 gErr stOk stErr2 ("x") exGE rfl (by decide),
   parse_orchestration.2.1 gOk stOk ("x") exEl exEl rfl rfl⟩

/-- C3: for a grammar error failing at a valid 1-based line of the input,
the constructed ParseError's context window spans at most 11 lines, at
most ERROR_CONTEXT_LINES = 5 lines to each side of the failing line, both
ends clamped to the document bounds, and the failing line (0-based index
err.line - 1) lies inside the window. -/
theorem parse_error_context_window (err : GrammarParseError) (input : String)
    (pe : ParseError) (h1 : 1 ≤ err.line)
    (h2 : err.line ≤ (get_source_lines input).length)
    (hpe : ParseError.from? err input = some pe) :
    pe.context_end + 1 - pe.context_start ≤ 11
    ∧ pe.context_start ≤ err.line - 1
    ∧ err.line - 1 ≤ pe.context_end
    ∧ pe.context_end ≤ (get_source_lines input).length - 1
    ∧ err.line - 1 - pe.context_start ≤ ERROR_CONTEXT_LINES
    ∧ pe.context_end - (err.line - 1) ≤ ERROR_CONTEXT_LINES := by
  have hlc := get_source_lines_length_pos input
  rw [from?_eq_some err input h1] at hpe
  obtain rfl := Option.some.inj hpe
  rw [fromBody_context_start, fromBody_context_end,
    clampedLine_of_le err.line (get_source_lines input).length h2]
  unfold windowStart windowEnd ERROR_CONTEXT_LINES
  split_ifs <;> omega

/-- Witness for C3: the grammar error at line 2 of the three-line input
"a\nb\nc" yields the context window [0, 2]. -/
theorem parse_error_context_window_witness :
    ((1 : Nat) ≤ exGE3.line
      ∧ exGE3.line ≤ (get_source_lines exInput3).length
      ∧ ParseError.from? exGE3 exInput3 = some exPE3)
    ∧ exPE3.context_end + 1 - exPE3.context_start ≤ 11 :=
  ⟨⟨by decide, by decide, by decide⟩,
   (parse_error_context_window exGE3 exInput3 exPE3 (by decide) (by decide) (by decide)).1⟩

/-- C10: under the precondition that the grammar-reported failing line
satisfies 1 <= err.line <= line_count, ParseError::from succeeds (no
panic) and establishes
context_start <= err.line - 1 <= context_end <= line_count - 1, so the
slice of source lines from context_start to context_end inclusive is in
bounds. -/
theorem parse_error_construction_in_bounds (err : GrammarParseError) (input : String)
    (h1 : 1 ≤ err.line) (h2 : err.line ≤ (get_source_lines input).length) :
    ∃ pe, ParseError.from? err input = some pe
      ∧ pe.context_start ≤ err.line - 1
      ∧ err.line - 1 ≤ pe.context_end
      ∧ pe.context_end ≤ (get_source_lines input).length - 1
      ∧ pe.context_end + 1 ≤ (get_source_lines input).length := by
  have hlc := get_source_lines_length_pos input
  refine ⟨ParseError.fromBody err input
    (clampedLine err.line (get_source_lines input).length),
    from?_eq_some err input h1, ?_⟩
  rw [fromBody_context_start, fromBody_context_end,
    clampedLine_of_le err.line (get_source_lines input).length h2]
  unfold windowStart windowEnd ERROR_CONTEXT_LINES
  split_ifs <;> omega

/-- Witness for C10: the line-2 error on the three-line input yields an
in-bounds context slice. -/
theorem parse_error_construction_in_bounds_witness :
    ((1 : Nat) ≤ exGE3.line ∧ exGE3.line ≤ (get_source_lines exInput3).length)
    ∧ ∃ pe, ParseError.from? exGE3 exInput3 = some pe
      ∧ pe.context_start ≤ exGE3.line - 1
      ∧ exGE3.line - 1 ≤ pe.context_end
      ∧ pe.context_end ≤ (get_source_lines exInput3).length - 1
      ∧ pe.context_end + 1 ≤ (get_source_lines exInput3).length :=
  ⟨⟨by decide, by decide⟩,
   parse_error_construction_in_bounds exGE3 exInput3 (by decide) (by decide)⟩

/-- C4 counterexample: for the grammar error reporting line 0 (a value the
claim explicitly includes) on the empty input, the clamp
`(if err.line <= line_count { err.line } else { line_count }) - 1`
computes 0 - 1 on usize, which underflows, so ParseError::from is not
total there: the embedding returns none (the panic of a debug build). -/
theorem parse_error_clamp_counterexample :
    ParseError.from? { offset := 0, line := 0, expected := [] } ("") = none := by
  decide

/-- C4 amended: for every grammar error whose reported line is at least 1
(any value past the last line included) and every input (the empty input
included), the clamp is total, never underflows, and lands in
[0, line_count - 1], and ParseError::from succeeds; for a reported line of
0 the subtraction underflows (see the counterexample). -/
theorem parse_error_clamp_total_amended (err : GrammarParseError) (input : String)
    (h1 : 1 ≤ err.line) :
    (∃ l, clampLine? err.line (get_source_lines input).length = some l
      ∧ l ≤ (get_source_lines input).length - 1)
    ∧ ∃ pe, ParseError.from? err input = some pe := by
  have hlc := get_source_lines_length_pos input
  exact ⟨⟨clampedLine err.line (get_source_lines input).length,
    clampLine?_eq_some err.line (get_source_lines input).length h1 hlc,
    clampedLine_le err.line (get_source_lines input).length hlc⟩,
    ⟨ParseError.fromBody err input (clampedLine err.line (get_source_lines input).length),
    from?_eq_some err input h1⟩⟩

/-- Witness for C4 amended: the line-1 error on the empty input clamps to
line index 0 and the construction succeeds. -/
theorem parse_error_clamp_total_amended_witness :
    (1 : Nat) ≤ exGE.line
    ∧ ((∃ l, clampLine? exGE.line (get_source_lines ("")).length = some l
        ∧ l ≤ (get_source_lines ("")).length - 1)
      ∧ ∃ pe, ParseError.from? exGE ("") = some pe) :=
  ⟨by decide, parse_error_clamp_total_amended exGE ("") (by decide)⟩

/-- C5: the constructed ParseError's context is exactly the raw contents of
the source lines with indices context_start through context_end inclusive,
in order, so its length is context_end - context_start + 1. -/
theorem parse_error_context_contents (err : GrammarParseError) (input : String)
    (pe : ParseError) (h1 : 1 ≤ err.line)
    (hpe : ParseError.from? err input = some pe) :
    pe.context.length = pe.context_end - pe.context_start + 1
    ∧ ∀ i : Nat, i < pe.context.length →
      pe.context[i]? =
        ((get_source_lines input)[pe.context_start + i]?).map (fun sl => sl.content) := by
  have hlc := get_source_lines_length_pos input
  rw [from?_eq_some err input h1] at hpe
  obtain rfl := Option.some.inj hpe
  have hline := clampedLine_le err.line (get_source_lines input).length hlc
  have hw := window_bounds (clampedLine err.line (get_source_lines input).length)
    (get_source_lines input).length hline hlc
  obtain ⟨hws, hwe, hwt, -, -, -⟩ := hw
  rw [fromBody_context, fromBody_context_start, fromBody_context_end]
  constructor
  · simp only [List.length_map, List.length_take, List.length_drop]
    omega
  · intro i hi
    simp only [List.length_map, List.length_take, List.length_drop] at hi
    rw [List.getElem?_map, List.getElem?_take, List.getElem?_drop]
    split_ifs with hcut
    · rfl
    · omega

/-- Witness for C5: on the three-line input, the context is the three raw
lines and its length is context_end - context_start + 1 = 3. -/
theorem parse_error_context_contents_witness :
    ((1 : Nat) ≤ exGE3.line ∧ ParseError.from? exGE3 exInput3 = some exPE3)
    ∧ exPE3.context.length = exPE3.context_end - exPE3.context_start + 1 :=
  ⟨⟨by decide, by decide⟩,
   (parse_error_context_contents exGE3 exInput3 exPE3 (by decide) (by decide)).1⟩

/-- C6: the constructed ParseError's expected field is exactly the
grammar's reported alternative token list: same tokens, same order, same
multiplicity. -/
theorem parse_error_expected_exact (err : GrammarParseError) (input : String)
    (pe : ParseError) (hpe : ParseError.from? err input = some pe) :
    pe.expected = err.expected := by
  unfold ParseError.from? at hpe
  split at hpe
  · cases hpe
  · obtain rfl := Option.some.inj hpe
    rfl

/-- Witness for C6: the expected list of the constructed error on the
one-line input "x" is the grammar's reported list. -/
theorem parse_error_expected_exact_witness :
    ParseError.from? exGE ("x") = some exPE ∧ exPE.expected = exGE.expected :=
  ⟨by decide, parse_error_expected_exact exGE ("x") exPE (by decide)⟩

theorem renderTokens_eq_map (ts : List String) :
    renderTokens ts = ts.map (fun t => if is_whitespace t then rustDebugStr t else t) := by
  induction ts with
  | nil => rfl
  | cons t rest ih => simp [renderTokens, ih]

theorem renderContextLines_eq_concat (pe : ParseError) (l : List String) :
    ∀ i, renderContextLines pe i l =
      concatLines ((List.enumFrom i l).map (fun p =>
        toString (pe.context_start + p.1 + 1) ++ " |" ++ " "
        ++ (if pe.context_start + p.1 + 1 = pe.position.line then p.2 else shorten_str p.2)
        ++ "\n")) := by
  induction l with
  | nil => intro i; rfl
  | cons c rest ih =>
    intro i
    simp only [renderContextLines, List.enumFrom, List.map, concatLines, ih (i + 1)]

/-- C7: the ParseError rendering is the headline with the failing line and
column, the expected token names joined by commas in encounter order with
every whitespace-only token in escaped quoted form, then one line per
context entry prefixed by its 1-based line number and a gutter bar, where
the failing line (the one whose number equals position.line) shows its
full content and every other context line goes through the display
truncation. -/
theorem parse_error_render_format (pe : ParseError) :
    renderParseError pe =
      "ERROR in line " ++ toString pe.position.line ++ " at column "
        ++ toString pe.position.col ++ ": Could not continue to parse, expected one of: "
        ++ String.intercalate (", ")
          (pe.expected.map (fun t => if is_whitespace t then rustDebugStr t else t))
        ++ "\n"
        ++ concatLines (pe.context.enum.map (fun p =>
            toString (pe.context_start + p.1 + 1) ++ " |" ++ " "
            ++ (if pe.context_start + p.1 + 1 = pe.position.line then p.2 else shorten_str p.2)
            ++ "\n")) := by
  simp only [renderParseError]
  rw [renderTokens_eq_map, renderContextLines_eq_concat pe pe.context 0]
  rfl

/-- C8: the TransformationError rendering prints the transformation name,
the start (line, col) and end (line, col) of the error's span, and the
cause message, in that order. -/
theorem transformation_error_render_fields (te : TransformationError) :
    renderTransformationError te =
      "ERROR applying transformation \"" ++ te.transformation_name
        ++ "\" to Elemtn at " ++ toString te.position.start.line ++ ":"
        ++ toString te.position.start.col ++ " to " ++ toString te.position.«end».line
        ++ ":" ++ toString te.position.«end».col ++ ": " ++ te.cause ++ "\n" := rfl

/-- C9: rendering a ParseError or a TransformationError is a pure,
deterministic function of the error's fields: equal error values render to
equal output; in this embedding each renderer is a total function from the
error value to a string, so rendering cannot modify the error and has no
effect beyond producing the output. -/
theorem render_pure_deterministic :
    (∀ p q : ParseError, p = q → renderParseError p = renderParseError q)
    ∧ ∀ p q : TransformationError, p = q →
      renderTransformationError p = renderTransformationError q :=
  ⟨fun _ _ h => congrArg renderParseError h,
   fun _ _ h => congrArg renderTransformationError h⟩

/-- Witness for C9: rendering the concrete errors twice gives equal
output. -/
theorem render_pure_deterministic_witness :
    exPE = exPE ∧ renderParseError exPE = renderParseError exPE
    ∧ renderTransformationError exTE = renderTransformationError exTE :=
  ⟨rfl, render_pure_deterministic.1 exPE exPE rfl,
   render_pure_deterministic.2 exTE exTE rfl⟩

end MWParser
